import Mathlib

/-!
Verification of the Optimizi supplier notification pipeline.

The development shallowly embeds the notification subsystem of this repository:

* `src/supplier (2)/project/src/models/index.ts` — the base data model
  (`Order`, `OrderItem`, `DeliveryAddress`, `AppNotification`);
* `src/supplier (2)/project/src/services/notificationService.ts` — the
  Firestore-backed `NotificationService` (store adapter and the notification
  creation helpers);
* `src/unnamed/part_000` (`supplierEmailService.ts`) — the EmailJS order-email
  dispatcher `SupplierEmailService`;
* `src/supplier (2)/project/src/types/notifications.ts` and the
  `EnhancedNotifications` page — the enhanced notification model and its
  client-side filter/sort engine.

Modelling conventions, used consistently below:

* The Firestore collection `notifications` is a list of documents
  (`Store := List NotifDoc`); `addDoc` appends, `updateDoc`/`deleteDoc` act on
  the document whose `id` matches, a `writeBatch` commit applies its operations
  in sequence, and a query (`where`/`orderBy`/`limit`) filters, sorts and
  truncates the list.  An `onSnapshot` subscription is modelled by the function
  that maps a store state to the result set handed to the callback.
* ISO-8601 timestamp strings (`createdAt`, `readAt`, ... produced by
  `new Date().toISOString()`) are represented by their epoch-millisecond values
  (`Int`): `new Date(s).getTime()` yields exactly that number and lexicographic
  order on the ISO strings agrees with numeric order on the values.
* Currency amounts (`total`, `unitPrice`, ... — JavaScript `number`s used only
  through `toFixed(2)` formatting) are represented exactly in cents (`Int`);
  `toFixed2` below reproduces `Number.prototype.toFixed(2)` on such values.
* TypeScript string-literal union fields (`status`, `type`, `priority`) are
  represented as `String`: the code paths under verification treat them as open
  strings (defensive `default`/fallback branches exist for unknown values).
* The free-form `data` payload (`any` in TypeScript) is represented by the
  tagged union `NotifData`, one constructor per object shape the service
  constructs, plus a key-value representation for opaque caller payloads.
-/

set_option maxRecDepth 4000

namespace Optimizi

/-- JavaScript `s.slice(-8)` on a JavaScript string: the last (at most) 8 characters. -/
def sliceLast8 (s : String) : String :=
  String.mk (s.data.drop (s.data.length - 8))

/-- JavaScript `hay.includes(needle)` on JavaScript strings: substring containment. -/
def strIncludes (hay needle : String) : Bool :=
  decide (needle.data <:+: hay.data)

/-- JavaScript `Number.prototype.toFixed(2)` for an exact cent amount. -/
def toFixed2 (cents : Int) : String :=
  let n := cents.natAbs
  (if cents < 0 then "-" else "")
    ++ toString (n / 100) ++ "."
    ++ (if n % 100 < 10 then "0" else "") ++ toString (n % 100)

/-- Structure `OrderItem` from `models/index.ts`. -/
structure OrderItem where
  productId : String
  productName : String
  productImage : String
  quantity : Nat
  unitPrice : Int
  totalPrice : Int
  unit : String
deriving DecidableEq

/-- Structure `DeliveryAddress` from `models/index.ts`. -/
structure DeliveryAddress where
  street : String
  city : String
  postalCode : String
  country : String
  instructions : Option String
deriving DecidableEq

/-- Structure `Order` from `models/index.ts`.  `status` and `paymentStatus` are
string-literal unions in TypeScript; they are carried as open strings here
because the verified code paths branch on them defensively. -/
structure Order where
  id : String
  masterOrderId : String
  fournisseurId : String
  fournisseurName : String
  userId : String
  userEmail : String
  userName : String
  userPhone : String
  subtotal : Int
  deliveryFee : Int
  tax : Int
  total : Int
  status : String
  paymentStatus : String
  paymentMethod : String
  deliveryAddress : DeliveryAddress
  orderNotes : String
  createdAt : Int
  updatedAt : Int
  items : List OrderItem
deriving DecidableEq

/-- The per-item snapshot stored in the `data.items` payload of an order notification. -/
structure ItemSnapshot where
  productName : String
  quantity : Nat
  unitPrice : Int
  totalPrice : Int
deriving DecidableEq

/-- The `data` payload (`any` in TypeScript) of a notification, as a tagged
union of the object shapes `NotificationService` actually constructs.
Opaque caller-supplied payloads are key-value lists. -/
inductive NotifData where
  | order (customerName customerEmail customerPhone : String) (orderTotal : Int)
      (itemCount : Nat) (orderStatus paymentStatus paymentMethod : String)
      (deliveryAddress : DeliveryAddress) (orderNotes : String)
      (items : List ItemSnapshot)
  | payment (customerName customerEmail : String) (orderTotal : Int)
      (oldPaymentStatus newPaymentStatus paymentMethod emoji : String)
  | statusChange (customerName : String) (orderTotal : Int)
      (oldStatus newStatus orderStatus : String)
  | product (productId : Option String) (extra : List (String × String))
  | rawPayload (fields : List (String × String))
deriving DecidableEq

/-- Accessor for `data.newPaymentStatus`, when the payload has that field. -/
def NotifData.newPaymentStatus : NotifData → Option String
  | .payment _ _ _ _ ns _ _ => some ns
  | _ => none

/-- The type `Omit<AppNotification, "id" or "createdAt">`: the record handed to
`NotificationService.createNotification` (from `models/index.ts`). -/
structure NotifInput where
  type : String
  title : String
  message : String
  orderId : Option String
  fournisseurId : String
  isRead : Bool
  data : Option NotifData
deriving DecidableEq

/-- A stored document of the Firestore `notifications` collection: the
`AppNotification` fields plus the `readAt` field that `markAsRead` and the
batched mark operations write (`none` until then — the creation helpers never
set it). -/
structure NotifDoc where
  id : String
  type : String
  title : String
  message : String
  orderId : Option String
  fournisseurId : String
  isRead : Bool
  createdAt : Int
  readAt : Option Int
  data : Option NotifData
deriving DecidableEq

/-- The `notifications` collection. -/
abbrev Store := List NotifDoc

/-- The clause `orderBy("createdAt", "desc")`: the comparison used to order query
results, newest first. -/
def byCreatedAtDesc (a b : NotifDoc) : Bool :=
  decide (b.createdAt ≤ a.createdAt)

/-- The clause `where("fournisseurId", "==", f)`. -/
def belongsTo (f : String) (d : NotifDoc) : Bool :=
  d.fournisseurId == f

/-- The clauses `where("fournisseurId", "==", f), where("isRead", "==", false)`. -/
def unreadOf (f : String) (d : NotifDoc) : Bool :=
  d.fournisseurId == f && d.isRead == false

/-- The document written by `createNotification`: the input record spread
together with a store-assigned id and `createdAt`; no `readAt` field yet. -/
def storedDoc (inp : NotifInput) (now : Int) (newId : String) : NotifDoc :=
  { id := newId, type := inp.type, title := inp.title, message := inp.message
    orderId := inp.orderId, fournisseurId := inp.fournisseurId
    isRead := inp.isRead, createdAt := now, readAt := none, data := inp.data }

/-- Source method `NotificationService.createNotification`: `addDoc` of the record plus
`createdAt: new Date().toISOString()`; `now` is that timestamp and `newId`
the id Firestore assigns. -/
def createNotification (s : Store) (inp : NotifInput) (now : Int)
    (newId : String) : Store :=
  s ++ [storedDoc inp now newId]

/-- Source method `NotificationService.getNotificationsByFournisseur`: query filtered by
`fournisseurId`, ordered by `createdAt` descending, limited to `limitCount`.
The `lastNotificationId` parameter is accepted but — exactly as in the source —
never used when building the query. -/
def getNotificationsByFournisseur (s : Store) (fournisseurId : String)
    (limitCount : Nat := 50) (lastNotificationId : Option String := none) :
    List NotifDoc :=
  let _cursor := lastNotificationId
  (((s.filter (belongsTo fournisseurId)).mergeSort byCreatedAtDesc).take
    limitCount)

/-- The query built by `NotificationService.searchNotifications`: filtered by
`fournisseurId` (and by `type` when one is given that is neither empty nor
`"all"` — the `type && type !== "all"` guard), ordered by `createdAt`
descending. -/
def searchQuery (s : Store) (fournisseurId : String)
    (type : Option String) : List NotifDoc :=
  match type with
  | some t =>
    if t ≠ "" ∧ t ≠ "all" then
      (s.filter (fun d => belongsTo fournisseurId d && d.type == t)).mergeSort
        byCreatedAtDesc
    else (s.filter (belongsTo fournisseurId)).mergeSort byCreatedAtDesc
  | none => (s.filter (belongsTo fournisseurId)).mergeSort byCreatedAtDesc

/-- Source method `NotificationService.searchNotifications`: run `searchQuery`, then — when
a search term is given — filter client-side, case-insensitively, on title and
message (`if (searchTerm)` is the JavaScript truthiness test). -/
def searchNotifications (s : Store) (fournisseurId searchTerm : String)
    (type : Option String := none) : List NotifDoc :=
  let base := searchQuery s fournisseurId type
  if searchTerm ≠ "" then
    base.filter (fun n =>
      strIncludes n.title.toLower searchTerm.toLower ||
      strIncludes n.message.toLower searchTerm.toLower)
  else base

/-- The update `{ isRead: true, readAt: now }` that the mark-as-read
operations apply. -/
def setRead (now : Int) (d : NotifDoc) : NotifDoc :=
  { d with isRead := true, readAt := some now }

/-- The call `updateDoc(doc(db, "notifications", id), ...)` setting `isRead` and `readAt`:
updates the document with the given id. -/
def updateReadById (now : Int) (s : Store) (id : String) : Store :=
  s.map (fun d => if d.id == id then setRead now d else d)

/-- Source method `NotificationService.markAsRead`. -/
def markAsRead (s : Store) (notificationId : String) (now : Int) : Store :=
  updateReadById now s notificationId

/-- Source method `NotificationService.markMultipleAsRead`: one batch of read updates,
committed as a unit. -/
def markMultipleAsRead (s : Store) (notificationIds : List String)
    (now : Int) : Store :=
  notificationIds.foldl (updateReadById now) s

/-- Source method `NotificationService.markAllAsRead`: snapshot the unread documents of the supplier, then batch-update each of them to read. -/
def markAllAsRead (s : Store) (fournisseurId : String) (now : Int) : Store :=
  ((s.filter (unreadOf fournisseurId)).map (·.id)).foldl (updateReadById now) s

/-- Source method `NotificationService.deleteNotification`. -/
def deleteNotification (s : Store) (notificationId : String) : Store :=
  s.filter (fun d => !(d.id == notificationId))

/-- Source method `NotificationService.deleteMultipleNotifications`: one batch of deletes. -/
def deleteMultipleNotifications (s : Store) (notificationIds : List String) :
    Store :=
  notificationIds.foldl (fun acc i => acc.filter (fun d => !(d.id == i))) s

/-- Source method `NotificationService.getUnreadCount`: size of the
`fournisseurId == f ∧ isRead == false` query result. -/
def getUnreadCount (s : Store) (fournisseurId : String) : Nat :=
  (s.filter (unreadOf fournisseurId)).length

/-- Return type of `NotificationService.getNotificationStats`; `byType` is
the counting object, read with `|| 0` for absent keys. -/
structure BasicNotifStats where
  total : Nat
  unread : Nat
  byType : String → Nat
  recent : Nat

/-- Source method `NotificationService.getNotificationStats`: fetch the partition of the supplier, then count totals, unread, per-type and the last-24-hours bucket.
`now` is `new Date().getTime()`. -/
def getNotificationStats (s : Store) (fournisseurId : String) (now : Int) :
    BasicNotifStats :=
  let notifications := s.filter (belongsTo fournisseurId)
  { total := notifications.length
    unread := (notifications.filter (fun n => !n.isRead)).length
    byType := fun ty => (notifications.filter (fun n => n.type == ty)).length
    recent := (notifications.filter
      (fun n => decide (now - 24 * 60 * 60 * 1000 < n.createdAt))).length }

/-- Source method `NotificationService.subscribeToNotifications`: the result set the
`onSnapshot` callback receives for a given store state — the partition of the supplier, newest first, capped at 50. -/
def notificationsSnapshot (s : Store) (fournisseurId : String) :
    List NotifDoc :=
  ((s.filter (belongsTo fournisseurId)).mergeSort byCreatedAtDesc).take 50

/-- Source method `NotificationService.subscribeToUnreadCount`: the count the `onSnapshot`
callback receives for a given store state. -/
def unreadCountSnapshot (s : Store) (fournisseurId : String) : Nat :=
  (s.filter (unreadOf fournisseurId)).length

/-! ### Notification creation helpers (`NotificationService.createSupplier…`)

The string literals below reproduce the source file byte-for-byte.  That file
is stored with its French text double-encoded (UTF-8 read as Mac Roman and
re-encoded), so the literals contain sequences such as `re√ßu` where the
other files of the repository (e.g. the email templates) spell `reçu`. -/

/-- The record built by `createSupplierOrderNotification` before it is handed
to `createNotification`. -/
def orderNotificationInput (subOrder : Order) : NotifInput :=
  { type := "order"
    title := "Nouvelle commande re√ßue! \uf8ffüõçÔ∏è"
    message := "Vous avez re√ßu une nouvelle commande de " ++ subOrder.userName
      ++ " d\x27un montant de ‚Ç¨" ++ toFixed2 subOrder.total
      ++ ". La commande contient " ++ toString subOrder.items.length
      ++ " article(s)."
    orderId := some subOrder.id
    fournisseurId := subOrder.fournisseurId
    isRead := false
    data := some (.order subOrder.userName subOrder.userEmail
      subOrder.userPhone subOrder.total subOrder.items.length subOrder.status
      subOrder.paymentStatus subOrder.paymentMethod subOrder.deliveryAddress
      subOrder.orderNotes
      (subOrder.items.map (fun item =>
        { productName := item.productName, quantity := item.quantity
          unitPrice := item.unitPrice, totalPrice := item.totalPrice }))) }

/-- Source method `NotificationService.createSupplierOrderNotification`: builds the record
and immediately persists it through `createNotification`. -/
def createSupplierOrderNotification (s : Store) (subOrder : Order) (now : Int)
    (newId : String) : Store :=
  createNotification s (orderNotificationInput subOrder) now newId

/-- The `switch (newStatus)` of `createSupplierPaymentNotification`: title,
message and emoji for the four modelled payment statuses; `none` for every
other status (the `default: return` branch). -/
def paymentSwitch (subOrder : Order) (newStatus : String) :
    Option (String × String × String) :=
  match newStatus with
  | "paid" => some ("Paiement re√ßu! \uf8ffüí∞",
      "Le paiement de ‚Ç¨" ++ toFixed2 subOrder.total
        ++ " a √©t√© re√ßu pour la commande #" ++ sliceLast8 subOrder.id
        ++ " de " ++ subOrder.userName,
      "\uf8ffüí∞")
  | "failed" => some ("Paiement √©chou√© ‚ùå",
      "Le paiement a √©chou√© pour la commande #" ++ sliceLast8 subOrder.id
        ++ " de " ++ subOrder.userName ++ ". Veuillez contacter le client.",
      "‚ùå")
  | "pending" => some ("Paiement en attente ‚è≥",
      "Le paiement est en attente pour la commande #" ++ sliceLast8 subOrder.id
        ++ " de " ++ subOrder.userName,
      "‚è≥")
  | "refunded" => some ("Paiement rembours√© \uf8ffüí∏",
      "Le paiement de ‚Ç¨" ++ toFixed2 subOrder.total
        ++ " a √©t√© rembours√© pour la commande #" ++ sliceLast8 subOrder.id
        ++ " de " ++ subOrder.userName,
      "\uf8ffüí∏")
  | _ => none

/-- The record built by `createSupplierPaymentNotification`; `none` when the
switch falls through to `default: return` and no notification is created. -/
def paymentNotificationInput (subOrder : Order) (oldStatus newStatus : String) :
    Option NotifInput :=
  (paymentSwitch subOrder newStatus).map (fun tme =>
    { type := "payment"
      title := tme.1
      message := tme.2.1
      orderId := some subOrder.id
      fournisseurId := subOrder.fournisseurId
      isRead := false
      data := some (.payment subOrder.userName subOrder.userEmail
        subOrder.total oldStatus newStatus subOrder.paymentMethod tme.2.2) })

/-- Source method `NotificationService.createSupplierPaymentNotification`: persists the
built record, or leaves the store untouched for an unmodelled status. -/
def createSupplierPaymentNotification (s : Store) (subOrder : Order)
    (oldStatus newStatus : String) (now : Int) (newId : String) : Store :=
  match paymentNotificationInput subOrder oldStatus newStatus with
  | none => s
  | some inp => createNotification s inp now newId

/-- The `statusMessages` table of `createSupplierOrderStatusNotification`. -/
def statusMessages (newStatus : String) : Option String :=
  match newStatus with
  | "pending" => some "en attente"
  | "confirmed" => some "confirm√©e"
  | "preparing" => some "en pr√©paration"
  | "out_for_delivery" => some "en livraison"
  | "delivered" => some "livr√©e"
  | "cancelled" => some "annul√©e"
  | _ => none

/-- The record built by `createSupplierOrderStatusNotification`; the message
uses `statusMessages[newStatus] || newStatus`. -/
def orderStatusNotificationInput (subOrder : Order)
    (oldStatus newStatus : String) : NotifInput :=
  { type := "order"
    title := "Statut de commande mis √† jour"
    message := "La commande de " ++ subOrder.userName ++ " est maintenant "
      ++ (statusMessages newStatus).getD newStatus ++ "."
    orderId := some subOrder.id
    fournisseurId := subOrder.fournisseurId
    isRead := false
    data := some (.statusChange subOrder.userName subOrder.total oldStatus
      newStatus newStatus) }

/-- Source method `NotificationService.createSupplierOrderStatusNotification`. -/
def createSupplierOrderStatusNotification (s : Store) (subOrder : Order)
    (oldStatus newStatus : String) (now : Int) (newId : String) : Store :=
  createNotification s (orderStatusNotificationInput subOrder oldStatus
    newStatus) now newId

/-- The record built by `createSystemNotification`; the opaque caller-supplied
`data` payload is passed through unchanged. -/
def systemNotificationInput (fournisseurId title message : String)
    (data : Option NotifData) : NotifInput :=
  { type := "system", title := title, message := message, orderId := none
    fournisseurId := fournisseurId, isRead := false, data := data }

/-- Source method `NotificationService.createSystemNotification`. -/
def createSystemNotification (s : Store) (fournisseurId title message : String)
    (data : Option NotifData) (now : Int) (newId : String) : Store :=
  createNotification s (systemNotificationInput fournisseurId title message
    data) now newId

/-- The record built by `createProductNotification`; its `data` is
`{ productId, ...data }` (spreading `undefined` adds nothing). -/
def productNotificationInput (fournisseurId title message : String)
    (productId : Option String) (data : Option (List (String × String))) :
    NotifInput :=
  { type := "product", title := title, message := message, orderId := none
    fournisseurId := fournisseurId, isRead := false
    data := some (.product productId (data.getD [])) }

/-- Source method `NotificationService.createProductNotification`. -/
def createProductNotification (s : Store) (fournisseurId title message : String)
    (productId : Option String) (data : Option (List (String × String)))
    (now : Int) (newId : String) : Store :=
  createNotification s (productNotificationInput fournisseurId title message
    productId data) now newId

/-! ### Email side-channel dispatcher (`SupplierEmailService`) -/

/-- Structure `OrderEmailTemplate` from `supplierEmailService.ts`. -/
structure OrderEmailTemplate where
  type : String
  subject : String
  message : String
deriving DecidableEq

/-- The `ORDER_STATUS_TEMPLATES` table: one email template per known order
status, keyed by `order.status`; statuses outside the table have none. -/
def ORDER_STATUS_TEMPLATES (status : String) : Option OrderEmailTemplate :=
  match status with
  | "pending" => some
    { type := "new_order"
      subject := "🆕 Nouvelle Commande Reçue - #{orderNumber}"
      message := "\n      Bonjour {supplierName},\n      \n      Vous avez reçu une nouvelle commande !\n      \n      Détails de la commande:\n      - Numéro de commande: #{orderNumber}\n      - Client: {customerName}\n      - Email: {customerEmail}\n      - Téléphone: {customerPhone}\n      - Montant total: €{total}\n      - Articles: {itemCount} article(s)\n      - Adresse de livraison: {deliveryAddress}\n      \n      Articles commandés:\n      {orderItems}\n      \n      Notes de commande: {orderNotes}\n      \n      Veuillez confirmer cette commande dès que possible.\n      \n      Cordialement,\n      L\x27équipe Optimizi\n    " }
  | "confirmed" => some
    { type := "order_confirmed"
      subject := "✅ Commande Confirmée - #{orderNumber}"
      message := "\n      Bonjour {supplierName},\n      \n      La commande #{orderNumber} a été confirmée et est maintenant en cours de préparation.\n      \n      Détails de la commande:\n      - Client: {customerName}\n      - Email: {customerEmail}\n      - Téléphone: {customerPhone}\n      - Montant total: €{total}\n      - Articles: {itemCount} article(s)\n      - Adresse de livraison: {deliveryAddress}\n      \n      Articles à préparer:\n      {orderItems}\n      \n      Notes de commande: {orderNotes}\n      \n      Temps de préparation estimé: 15-30 minutes\n      \n      Cordialement,\n      L\x27équipe Optimizi\n    " }
  | "preparing" => some
    { type := "order_preparing"
      subject := "👨‍🍳 Préparation en Cours - #{orderNumber}"
      message := "\n      Bonjour {supplierName},\n      \n      La commande #{orderNumber} est actuellement en cours de préparation.\n      \n      Détails de la commande:\n      - Client: {customerName}\n      - Email: {customerEmail}\n      - Téléphone: {customerPhone}\n      - Montant total: €{total}\n      - Articles: {itemCount} article(s)\n      - Adresse de livraison: {deliveryAddress}\n      \n      Articles en préparation:\n      {orderItems}\n      \n      Notes de commande: {orderNotes}\n      \n      Temps de livraison estimé: 20-40 minutes\n      \n      Cordialement,\n      L\x27équipe Optimizi\n    " }
  | "out_for_delivery" => some
    { type := "order_shipped"
      subject := "🚚 En Cours de Livraison - #{orderNumber}"
      message := "\n      Bonjour {supplierName},\n      \n      La commande #{orderNumber} est maintenant en route !\n      \n      Détails de la commande:\n      - Client: {customerName}\n      - Email: {customerEmail}\n      - Téléphone: {customerPhone}\n      - Montant total: €{total}\n      - Articles: {itemCount} article(s)\n      - Adresse de livraison: {deliveryAddress}\n      \n      Articles livrés:\n      {orderItems}\n      \n      Notes de commande: {orderNotes}\n      \n      Temps de livraison estimé: 10-20 minutes\n      \n      Cordialement,\n      L\x27équipe Optimizi\n    " }
  | "delivered" => some
    { type := "order_delivered"
      subject := "🎉 Commande Livrée - #{orderNumber}"
      message := "\n      Bonjour {supplierName},\n      \n      La commande #{orderNumber} a été livrée avec succès !\n      \n      Détails de la commande:\n      - Client: {customerName}\n      - Email: {customerEmail}\n      - Téléphone: {customerPhone}\n      - Montant total: €{total}\n      - Articles: {itemCount} article(s)\n      - Adresse de livraison: {deliveryAddress}\n      \n      Articles livrés:\n      {orderItems}\n      \n      Notes de commande: {orderNotes}\n      \n      Merci pour votre excellent service !\n      \n      Cordialement,\n      L\x27équipe Optimizi\n    " }
  | "cancelled" => some
    { type := "order_cancelled"
      subject := "❌ Commande Annulée - #{orderNumber}"
      message := "\n      Bonjour {supplierName},\n      \n      La commande #{orderNumber} a été annulée.\n      \n      Détails de la commande:\n      - Client: {customerName}\n      - Email: {customerEmail}\n      - Téléphone: {customerPhone}\n      - Montant total: €{total}\n      - Articles: {itemCount} article(s)\n      - Adresse de livraison: {deliveryAddress}\n      \n      Articles concernés:\n      {orderItems}\n      \n      Notes de commande: {orderNotes}\n      \n      Si vous avez des questions concernant cette annulation, n\x27hésitez pas à nous contacter.\n      \n      Cordialement,\n      L\x27équipe Optimizi\n    " }
  | _ => none

/-- Source method `SupplierEmailService.formatOrderItems`. -/
def formatOrderItems (items : List OrderItem) : String :=
  String.intercalate "\n" (items.map (fun item =>
    "• " ++ item.productName ++ " - Quantité: " ++ toString item.quantity
      ++ " " ++ item.unit ++ " - Prix: €" ++ toFixed2 item.totalPrice))

/-- Source method `SupplierEmailService.formatDeliveryAddress`. -/
def formatDeliveryAddress (address : DeliveryAddress) : String :=
  address.street ++ ", " ++ address.city ++ " " ++ address.postalCode ++ ", "
    ++ address.country

/-- Source method `SupplierEmailService.getSupplierEmail` (placeholder implementation in the
source). -/
def getSupplierEmail (_supplierId : String) : String :=
  "supplier@example.com"

/-- The flat parameter map handed to `emailjs.send`. -/
structure TemplateParams where
  to_email : String
  to_name : String
  subject : String
  message : String
  order_id : String
  status : String
  status_type : String
  company_name : String
  supplier_name : String
  customer_name : String
  customer_email : String
  customer_phone : String
  order_total : String
  item_count : Nat
  delivery_address : String
  order_items : String
  order_notes : String
deriving DecidableEq

/-- Source method `SupplierEmailService.sendOrderNotification`.  The external provider is
the `send` argument (`emailjs.send`), which either succeeds or fails; the
`try/catch` of the source maps a failure to `false`.  The result pairs the
returned boolean with the list of provider invocations actually made, so that
absence of side effects is expressible. -/
def sendOrderNotification (isInitialized : Bool)
    (send : TemplateParams → Except String String) (order : Order) :
    Bool × List TemplateParams :=
  if !isInitialized then (false, [])
  else
    match ORDER_STATUS_TEMPLATES order.status with
    | none => (false, [])
    | some template =>
      let orderNumber := (sliceLast8 order.id).toUpper
      let orderItemsHtml := formatOrderItems order.items
      let deliveryAddressFormatted := formatDeliveryAddress
        order.deliveryAddress
      let personalizedMessage :=
        ((((((((((template.message.replace "{supplierName}"
          order.fournisseurName).replace "{orderNumber}"
          orderNumber).replace "{customerName}"
          order.userName).replace "{customerEmail}"
          order.userEmail).replace "{customerPhone}"
          order.userPhone).replace "{total}"
          (toFixed2 order.total)).replace "{itemCount}"
          (toString order.items.length)).replace "{deliveryAddress}"
          deliveryAddressFormatted).replace "{orderItems}"
          orderItemsHtml).replace "{orderNotes}"
          (if order.orderNotes == "" then "Aucune note" else order.orderNotes))
      let personalizedSubject := template.subject.replace "{orderNumber}"
        orderNumber
      let templateParams : TemplateParams :=
        { to_email := getSupplierEmail order.fournisseurId
          to_name := order.fournisseurName
          subject := personalizedSubject
          message := personalizedMessage
          order_id := orderNumber
          status := order.status
          status_type := template.type
          company_name := "Optimizi"
          supplier_name := order.fournisseurName
          customer_name := order.userName
          customer_email := order.userEmail
          customer_phone := order.userPhone
          order_total := toFixed2 order.total
          item_count := order.items.length
          delivery_address := deliveryAddressFormatted
          order_items := orderItemsHtml
          order_notes := if order.orderNotes == "" then "Aucune note"
            else order.orderNotes }
      match send templateParams with
      | .ok _ => (true, [templateParams])
      | .error _ => (false, [templateParams])

/-! ### Enhanced notification model and the client-side filter/sort engine -/

/-- Structure `EnhancedNotification` from `types/notifications.ts`. -/
structure EnhancedNotification where
  id : String
  type : String
  subType : String
  title : String
  message : String
  priority : String
  fournisseurId : String
  fournisseurName : String
  orderId : Option String
  productId : Option String
  customerId : Option String
  campaignId : Option String
  isRead : Bool
  readAt : Option Int
  isArchived : Bool
  archivedAt : Option Int
  emailSent : Bool
  emailSentAt : Option Int
  smsSent : Bool
  smsSentAt : Option Int
  clicked : Bool
  clickedAt : Option Int
  actionTaken : Bool
  actionTakenAt : Option Int
  data : Option (List (String × String))
  expiresAt : Option Int
  createdAt : Int
  updatedAt : Int
deriving DecidableEq

/-- The `priorityOrder` table of the sort comparator in
`EnhancedNotifications`; unknown priorities read as `|| 0`. -/
def priorityOrder (priority : String) : Nat :=
  match priority with
  | "high" => 3
  | "medium" => 2
  | "low" => 1
  | _ => 0

/-- The comparator passed to `filtered.sort` in
`filteredAndSortedNotifications`, one case per sort key (`newest` is also the
`default`).  `localeCompare` on the `type` strings is modelled by
lexicographic comparison. -/
def sortComparator (sortBy : String) (a b : EnhancedNotification) : Int :=
  match sortBy with
  | "oldest" => a.createdAt - b.createdAt
  | "priority" =>
    let aPriority := priorityOrder a.priority
    let bPriority := priorityOrder b.priority
    if aPriority == bPriority then b.createdAt - a.createdAt
    else (bPriority : Int) - (aPriority : Int)
  | "unread" =>
    if a.isRead == b.isRead then b.createdAt - a.createdAt
    else if a.isRead then 1 else -1
  | "type" =>
    if a.type == b.type then b.createdAt - a.createdAt
    else if a.type < b.type then -1 else 1
  | _ => b.createdAt - a.createdAt

/-- The `matchesSearch` filter of `filteredAndSortedNotifications`. -/
def matchesSearch (searchTerm : String) (n : EnhancedNotification) : Bool :=
  searchTerm == "" ||
  strIncludes n.title.toLower searchTerm.toLower ||
  strIncludes n.message.toLower searchTerm.toLower

/-- Source memo `filteredAndSortedNotifications` from the `EnhancedNotifications` page:
filter by the search term, then sort with the comparator.  `Array.sort` with a
consistent comparator is modelled by a (stable) merge sort. -/
def filteredAndSortedNotifications (notifications : List EnhancedNotification)
    (searchTerm sortBy : String) : List EnhancedNotification :=
  (notifications.filter (matchesSearch searchTerm)).mergeSort
    (fun a b => decide (sortComparator sortBy a b ≤ 0))

/-- Modelled from the spec: `EnhancedNotificationService.getNotificationStats`
is not among the source files (only its return type `NotificationStats` and
the page consuming it are), so its click-through-rate computation is taken
from the words of the spec: `clickThroughRate = clicked_count / total * 100`,
and 0 when the total is 0. -/
def clickThroughRate (notifications : List EnhancedNotification) : ℚ :=
  let total := notifications.length
  let clicked := (notifications.filter (·.clicked)).length
  if total = 0 then 0 else ((clicked : ℚ) / (total : ℚ)) * 100

/-! ### Concrete fixtures

`testOrder` is the test order of the `EmailTestComponent` of the repository
(total 33.59, customer "Test Customer"), which is also the fixture used by the testable properties of the spec. -/

/-- The test order from `EmailTestComponent.testEmailService`. -/
def testOrder : Order :=
  { id := "TEST123456789"
    masterOrderId := "TEST123456789"
    fournisseurId := "test-supplier-123"
    fournisseurName := "Test Supplier"
    userId := "test-customer-123"
    userEmail := "test@example.com"
    userName := "Test Customer"
    userPhone := "+1234567890"
    subtotal := 2599
    deliveryFee := 500
    tax := 260
    total := 3359
    status := "pending"
    paymentStatus := "pending"
    paymentMethod := "Credit Card"
    deliveryAddress :=
      { street := "123 Test Street", city := "Test City"
        postalCode := "12345", country := "Test Country"
        instructions := some "Ring doorbell twice" }
    orderNotes := "This is a test order for email verification"
    createdAt := 0
    updatedAt := 0
    items :=
      [ { productId := "prod-1", productName := "Test Product 1"
          productImage := "https://via.placeholder.com/100", quantity := 2
          unitPrice := 1299, totalPrice := 2598, unit := "pieces" },
        { productId := "prod-2", productName := "Test Product 2"
          productImage := "https://via.placeholder.com/100", quantity := 1
          unitPrice := 761, totalPrice := 761, unit := "pieces" } ] }

/-! ### Helper lemmas -/

/-- Filtering by a conjunction factors through filtering by the first
conjunct. -/
lemma filter_and_factor {α : Type} (p q : α → Bool) (l : List α) :
    l.filter (fun a => q a && p a) = (l.filter q).filter p := by
  rw [List.filter_filter]
  exact List.filter_congr (fun a _ => by rw [Bool.and_comm])

lemma unreadOf_eq_and (f : String) :
    unreadOf f = fun d => belongsTo f d && (d.isRead == false) := rfl

lemma setRead_id (now : Int) (d : NotifDoc) : (setRead now d).id = d.id := rfl

lemma setRead_idem (now : Int) (d : NotifDoc) :
    setRead now (setRead now d) = setRead now d := rfl

/-- A committed batch of read updates acts as one simultaneous update of every
document whose id is among the batched ids. -/
lemma foldl_updateReadById (now : Int) (ids : List String) (s : Store) :
    ids.foldl (updateReadById now) s
      = s.map (fun d => if d.id ∈ ids then setRead now d else d) := by
  induction ids generalizing s with
  | nil => simp
  | cons i rest ih =>
    rw [List.foldl_cons, ih]
    unfold updateReadById
    rw [List.map_map]
    apply List.map_congr_left
    intro d _
    by_cases h1 : d.id = i
    · by_cases h2 : d.id ∈ rest <;>
        simp [Function.comp, h1, h2, setRead_idem, List.mem_cons]
    · by_cases h2 : d.id ∈ rest <;>
        simp [Function.comp, h1, h2, List.mem_cons]

lemma markAllAsRead_eq_map (s : Store) (f : String) (now : Int) :
    markAllAsRead s f now
      = s.map (fun d =>
          if d.id ∈ (s.filter (unreadOf f)).map (·.id) then setRead now d
          else d) := by
  unfold markAllAsRead
  exact foldl_updateReadById now _ s

/-- After `markAllAsRead`, the supplier has no unread documents left. -/
lemma unreadOf_eq_false_after_markAll (s : Store) (f : String) (now : Int) :
    ∀ d ∈ markAllAsRead s f now, unreadOf f d = false := by
  rw [markAllAsRead_eq_map]
  intro d hd
  rcases List.mem_map.mp hd with ⟨d0, hd0, rfl⟩
  by_cases hmem : d0.id ∈ (s.filter (unreadOf f)).map (·.id)
  · simp only [hmem, if_true]
    simp [unreadOf, setRead]
  · simp only [hmem, if_false]
    cases h : unreadOf f d0 with
    | false => rfl
    | true =>
      exact absurd (List.mem_map.mpr
        ⟨d0, List.mem_filter.mpr ⟨hd0, h⟩, rfl⟩) hmem

lemma filter_unread_markAll (s : Store) (f : String) (now : Int) :
    (markAllAsRead s f now).filter (unreadOf f) = [] := by
  rw [List.filter_eq_nil_iff]
  intro d hd
  simp [unreadOf_eq_false_after_markAll s f now d hd]

/-- Batched deletes only remove documents. -/
lemma mem_deleteMultiple (ids : List String) (s : Store) (d : NotifDoc) :
    d ∈ deleteMultipleNotifications s ids → d ∈ s := by
  unfold deleteMultipleNotifications
  induction ids generalizing s with
  | nil => exact fun h => h
  | cons i rest ih =>
    intro h
    exact List.mem_of_mem_filter (ih _ h)

/-! ### Claim theorems -/

/-- C9: `getNotificationsByFournisseur` ignores its `lastNotificationId`
cursor parameter: any two calls differing only in the cursor evaluate the
identical store query and return the same result, namely the newest
`limitCount` notifications of the partition of the supplier, so cursor-based
pagination has no effect. -/
theorem getNotificationsByFournisseur_ignores_cursor :
    ∀ (s : Store) (f : String) (n : Nat) (c₁ c₂ : Option String),
      getNotificationsByFournisseur s f n c₁
        = getNotificationsByFournisseur s f n c₂ ∧
      getNotificationsByFournisseur s f n c₁
        = ((s.filter (belongsTo f)).mergeSort byCreatedAtDesc).take n :=
  fun _ _ _ _ _ => ⟨rfl, rfl⟩

/-- C4: `createSupplierOrderStatusNotification` always creates exactly one
notification; its message contains the localized phrase of the
`statusMessages` table for the six known statuses (`"en livraison"` for
`out_for_delivery`), and for any status outside the table the raw status
string itself appears verbatim in the message (the `|| newStatus`
fallback). -/
theorem orderStatusNotification_localizes_or_echoes :
    ∀ (subOrder : Order) (oldStatus newStatus : String) (s : Store)
      (now : Int) (newId : String),
      (createSupplierOrderStatusNotification s subOrder oldStatus newStatus
        now newId).length = s.length + 1 ∧
      ((statusMessages newStatus).getD newStatus).data <:+:
        (orderStatusNotificationInput subOrder oldStatus newStatus).message.data ∧
      statusMessages "pending" = some "en attente" ∧
      statusMessages "confirmed" = some "confirm√©e" ∧
      statusMessages "preparing" = some "en pr√©paration" ∧
      statusMessages "out_for_delivery" = some "en livraison" ∧
      statusMessages "delivered" = some "livr√©e" ∧
      statusMessages "cancelled" = some "annul√©e" := by
  intro subOrder oldStatus newStatus s now newId
  refine ⟨?_, ?_, rfl, rfl, rfl, rfl, rfl, rfl⟩
  · simp [createSupplierOrderStatusNotification, createNotification]
  · refine ⟨("La commande de " ++ subOrder.userName
      ++ " est maintenant ").data, ".".data, ?_⟩
    simp [orderStatusNotificationInput, String.data_append,
      List.append_assoc]

/-- C3 counterexample: the order creation helper, called on its own with an
empty store, already persists the record it builds — the store grows from 0
to 1 documents without any separate persistence call by the caller, so the
factory does itself write to the notification store. -/
theorem factory_persists_counterexample :
    (createSupplierOrderNotification ([] : Store) testOrder 0 "n1").length = 1
      ∧ ([] : Store).length = 0 :=
  ⟨rfl, rfl⟩

/-- C3 amended: each creation helper builds a fully-formed record (minus `id`
and `createdAt`, which the store assigns) as a pure function of its arguments
and then itself persists exactly that record through a single
`createNotification` append; the stored document carries the fields of the input
unchanged.  Persistence is not left to the caller. -/
theorem factories_build_record_then_persist :
    ∀ (s : Store) (subOrder : Order)
      (oldStatus newStatus f title message : String)
      (productId : Option String) (sdata : Option NotifData)
      (pdata : Option (List (String × String))) (inp : NotifInput)
      (now : Int) (newId : String),
      createNotification s inp now newId = s ++ [storedDoc inp now newId] ∧
      createSupplierOrderNotification s subOrder now newId
        = s ++ [storedDoc (orderNotificationInput subOrder) now newId] ∧
      createSupplierPaymentNotification s subOrder oldStatus newStatus now
          newId
        = (paymentNotificationInput subOrder oldStatus newStatus).elim s
            (fun i => s ++ [storedDoc i now newId]) ∧
      createSupplierOrderStatusNotification s subOrder oldStatus newStatus now
          newId
        = s ++ [storedDoc (orderStatusNotificationInput subOrder oldStatus
            newStatus) now newId] ∧
      createSystemNotification s f title message sdata now newId
        = s ++ [storedDoc (systemNotificationInput f title message sdata) now
            newId] ∧
      createProductNotification s f title message productId pdata now newId
        = s ++ [storedDoc (productNotificationInput f title message productId
            pdata) now newId] ∧
      (storedDoc inp now newId).id = newId ∧
      (storedDoc inp now newId).createdAt = now ∧
      (storedDoc inp now newId).type = inp.type ∧
      (storedDoc inp now newId).title = inp.title ∧
      (storedDoc inp now newId).message = inp.message ∧
      (storedDoc inp now newId).orderId = inp.orderId ∧
      (storedDoc inp now newId).fournisseurId = inp.fournisseurId ∧
      (storedDoc inp now newId).isRead = inp.isRead ∧
      (storedDoc inp now newId).data = inp.data := by
  intro s subOrder oldStatus newStatus f title message productId sdata pdata
    inp now newId
  refine ⟨rfl, rfl, ?_, rfl, rfl, rfl, rfl, rfl, rfl, rfl, rfl, rfl, rfl,
    rfl, rfl⟩
  unfold createSupplierPaymentNotification
  cases paymentNotificationInput subOrder oldStatus newStatus <;> rfl

/-- C6: `markAllAsRead` is idempotent — running it a second time (at any
later timestamp) changes nothing — and after one application the unread count of the supplier is 0. -/
theorem markAllAsRead_idempotent_and_clears :
    ∀ (s : Store) (f : String) (now₁ now₂ : Int),
      markAllAsRead (markAllAsRead s f now₁) f now₂ = markAllAsRead s f now₁ ∧
      getUnreadCount (markAllAsRead s f now₁) f = 0 := by
  intro s f now₁ now₂
  constructor
  · conv_lhs => rw [markAllAsRead]
    rw [filter_unread_markAll]
    simp
  · unfold getUnreadCount
    rw [filter_unread_markAll]
    rfl

lemma paymentSwitch_isSome (subOrder : Order) (ns : String) :
    (paymentSwitch subOrder ns).isSome
      = (ns == "paid" || ns == "failed" || ns == "pending" ||
         ns == "refunded") := by
  unfold paymentSwitch
  split
  · simp
  · simp
  · simp
  · simp
  · rename_i h1 h2 h3 h4
    simp only [Option.isSome_none]
    symm
    simp only [Bool.or_eq_false_iff, beq_eq_false_iff_ne, ne_eq]
    exact ⟨⟨⟨h1, h2⟩, h3⟩, h4⟩

lemma paymentInput_isSome (subOrder : Order) (old ns : String) :
    (paymentNotificationInput subOrder old ns).isSome
      = (paymentSwitch subOrder ns).isSome := by
  unfold paymentNotificationInput
  cases paymentSwitch subOrder ns <;> rfl

/-- C1: `createSupplierPaymentNotification` builds a record exactly for the
four payment statuses `paid`, `failed`, `pending`, `refunded` and silently
creates nothing for any other status; when a record is created the store
grows by exactly one document.  At the fixture of the spec
(`testOrder`, `pending → paid`) the record has `type = "payment"` and
`data.newPaymentStatus = "paid"`, but its title does NOT contain `"reçu"`:
the literal in the source file is the double-encoded `"re√ßu"` (which the title
does contain). -/
theorem paymentNotification_filter_and_title :
    ∀ (subOrder : Order) (oldStatus newStatus : String) (s : Store)
      (now : Int) (newId : String),
      ((paymentNotificationInput subOrder oldStatus newStatus).isSome
        = (newStatus == "paid" || newStatus == "failed" ||
           newStatus == "pending" || newStatus == "refunded")) ∧
      ((createSupplierPaymentNotification s subOrder oldStatus newStatus now
          newId).length
        = (if (paymentNotificationInput subOrder oldStatus newStatus).isSome
           then s.length + 1 else s.length)) ∧
      ((paymentNotificationInput subOrder oldStatus "shipped") = none) ∧
      ((paymentNotificationInput testOrder "pending" "paid").map (·.type)
        = some "payment") ∧
      ((paymentNotificationInput testOrder "pending" "paid").bind
          (fun i => i.data.bind NotifData.newPaymentStatus) = some "paid") ∧
      ((paymentNotificationInput testOrder "pending" "paid").map
          (fun i => strIncludes i.title "reçu") = some false) ∧
      ((paymentNotificationInput testOrder "pending" "paid").map
          (fun i => strIncludes i.title "re√ßu") = some true) := by
  intro subOrder oldStatus newStatus s now newId
  refine ⟨(paymentInput_isSome subOrder oldStatus newStatus).trans
      (paymentSwitch_isSome subOrder newStatus), ?_, rfl, by decide,
    by decide, by decide, by decide⟩
  unfold createSupplierPaymentNotification
  cases h : paymentNotificationInput subOrder oldStatus newStatus <;>
    simp [h, createNotification]

lemma getNotificationsByFournisseur_eq (s : Store) (f : String) (n : Nat)
    (c : Option String) :
    getNotificationsByFournisseur s f n c
      = ((s.filter (belongsTo f)).mergeSort byCreatedAtDesc).take n := rfl

lemma notificationsSnapshot_eq (s : Store) (f : String) :
    notificationsSnapshot s f
      = ((s.filter (belongsTo f)).mergeSort byCreatedAtDesc).take 50 := rfl

lemma mem_sorted_partition {s : Store} {f : String} {n : Nat} {d : NotifDoc} :
    d ∈ ((s.filter (belongsTo f)).mergeSort byCreatedAtDesc).take n →
      d.fournisseurId = f := by
  intro h
  have h2 := List.take_subset _ _ h
  have h3 := (List.mergeSort_perm (s.filter (belongsTo f))
    byCreatedAtDesc).mem_iff.mp h2
  have h4 := (List.mem_filter.mp h3).2
  simpa [belongsTo, beq_iff_eq] using h4

lemma mem_searchQuery {s : Store} {f : String} {ty : Option String}
    {d : NotifDoc} : d ∈ searchQuery s f ty → d.fournisseurId = f := by
  cases ty with
  | none =>
    simp only [searchQuery]
    intro h
    have h2 := (List.mergeSort_perm _ byCreatedAtDesc).mem_iff.mp h
    simpa [belongsTo, beq_iff_eq] using (List.mem_filter.mp h2).2
  | some t =>
    simp only [searchQuery]
    by_cases hc : t ≠ "" ∧ t ≠ "all"
    · rw [if_pos hc]
      intro h
      have h2 := (List.mergeSort_perm _ byCreatedAtDesc).mem_iff.mp h
      have h3 := (List.mem_filter.mp h2).2
      have h4 := (Bool.and_eq_true _ _).mp h3
      simpa [belongsTo, beq_iff_eq] using h4.1
    · rw [if_neg hc]
      intro h
      have h2 := (List.mergeSort_perm _ byCreatedAtDesc).mem_iff.mp h
      simpa [belongsTo, beq_iff_eq] using (List.mem_filter.mp h2).2

lemma mem_searchNotifications {s : Store} {f term : String}
    {ty : Option String} {d : NotifDoc} :
    d ∈ searchNotifications s f term ty → d.fournisseurId = f := by
  unfold searchNotifications
  by_cases hterm : term ≠ ""
  · rw [if_pos hterm]
    intro h
    exact mem_searchQuery (List.mem_of_mem_filter h)
  · rw [if_neg hterm]
    exact mem_searchQuery

lemma searchQuery_congr {s₁ s₂ : Store} {f : String} (ty : Option String)
    (h : s₁.filter (belongsTo f) = s₂.filter (belongsTo f)) :
    searchQuery s₁ f ty = searchQuery s₂ f ty := by
  cases ty with
  | none => simp only [searchQuery]; rw [h]
  | some t =>
    simp only [searchQuery]
    by_cases hc : t ≠ "" ∧ t ≠ "all"
    · rw [if_pos hc, if_pos hc,
        filter_and_factor (fun d => d.type == t) (belongsTo f) s₁,
        filter_and_factor (fun d => d.type == t) (belongsTo f) s₂, h]
    · rw [if_neg hc, if_neg hc, h]

lemma getNotificationStats_eq (s : Store) (f : String) (now : Int) :
    getNotificationStats s f now
      = { total := (s.filter (belongsTo f)).length
          unread := ((s.filter (belongsTo f)).filter (fun n =>
            !n.isRead)).length
          byType := fun ty => ((s.filter (belongsTo f)).filter (fun n =>
            n.type == ty)).length
          recent := ((s.filter (belongsTo f)).filter (fun n =>
            decide (now - 24 * 60 * 60 * 1000 < n.createdAt))).length } := rfl

/-- C2: every read operation of the notification store adapter is scoped to
the requested `fournisseurId`.  The returned/streamed documents all carry
that recipient id, and the result of each operation is a function of the
partition of the recipient alone: two stores agreeing on the partition give
identical results, so notifications of other recipients can not influence
what a recipient sees. -/
theorem notification_reads_scoped_to_recipient :
    ∀ (f : String) (s₁ s₂ : Store) (n : Nat) (c : Option String)
      (term : String) (ty : Option String) (now : Int),
      (∀ d ∈ getNotificationsByFournisseur s₁ f n c, d.fournisseurId = f) ∧
      (∀ d ∈ searchNotifications s₁ f term ty, d.fournisseurId = f) ∧
      (∀ d ∈ notificationsSnapshot s₁ f, d.fournisseurId = f) ∧
      (s₁.filter (belongsTo f) = s₂.filter (belongsTo f) →
        getNotificationsByFournisseur s₁ f n c
          = getNotificationsByFournisseur s₂ f n c ∧
        searchNotifications s₁ f term ty = searchNotifications s₂ f term ty ∧
        getUnreadCount s₁ f = getUnreadCount s₂ f ∧
        getNotificationStats s₁ f now = getNotificationStats s₂ f now ∧
        notificationsSnapshot s₁ f = notificationsSnapshot s₂ f ∧
        unreadCountSnapshot s₁ f = unreadCountSnapshot s₂ f) := by
  intro f s₁ s₂ n c term ty now
  refine ⟨fun d hd => mem_sorted_partition hd,
    fun d hd => mem_searchNotifications hd,
    fun d hd => mem_sorted_partition hd, ?_⟩
  intro h
  have hunread : s₁.filter (unreadOf f) = s₂.filter (unreadOf f) := by
    rw [unreadOf_eq_and,
      filter_and_factor (fun d => d.isRead == false) (belongsTo f) s₁,
      filter_and_factor (fun d => d.isRead == false) (belongsTo f) s₂, h]
  refine ⟨?_, ?_, ?_, ?_, ?_, ?_⟩
  · rw [getNotificationsByFournisseur_eq, getNotificationsByFournisseur_eq, h]
  · unfold searchNotifications
    rw [searchQuery_congr ty h]
  · unfold getUnreadCount
    rw [hunread]
  · rw [getNotificationStats_eq, getNotificationStats_eq, h]
  · rw [notificationsSnapshot_eq, notificationsSnapshot_eq, h]
  · unfold unreadCountSnapshot
    rw [hunread]

/-- A notification of supplier `f1`, unread. -/
def docA : NotifDoc :=
  { id := "a1", type := "order", title := "Titre A", message := "Message A"
    orderId := none, fournisseurId := "f1", isRead := false, createdAt := 5
    readAt := none, data := none }

/-- A notification of a different supplier `f2`. -/
def docB : NotifDoc :=
  { docA with id := "b1", fournisseurId := "f2" }

/-- Witness for C2 at concrete stores: adding a notification of another recipient leaves the query results of supplier `f1` and unread count
unchanged. -/
theorem notification_reads_scoped_to_recipient_witness :
    ([docA, docB] : Store).filter (belongsTo "f1")
        = ([docA] : Store).filter (belongsTo "f1") ∧
      getNotificationsByFournisseur [docA, docB] "f1" 50 none
        = getNotificationsByFournisseur [docA] "f1" 50 none ∧
      getUnreadCount [docA, docB] "f1" = getUnreadCount [docA] "f1" := by
  have h : ([docA, docB] : Store).filter (belongsTo "f1")
      = ([docA] : Store).filter (belongsTo "f1") := by decide
  have happ := (notification_reads_scoped_to_recipient "f1" [docA, docB]
    [docA] 50 none "" none 0).2.2.2 h
  exact ⟨h, happ.1, happ.2.2.1⟩

lemma paymentInput_isRead_getD (subOrder : Order) (old ns : String) :
    ((paymentNotificationInput subOrder old ns).map (·.isRead)).getD false
      = false := by
  unfold paymentNotificationInput
  cases paymentSwitch subOrder ns <;> rfl

lemma mem_createNotification {s : Store} {inp : NotifInput} {now : Int}
    {newId : String} {d : NotifDoc} :
    d ∈ createNotification s inp now newId →
      d ∈ s ∨ (d.isRead = inp.isRead ∧ d.readAt = none) := by
  intro h
  rcases List.mem_append.mp h with h1 | h2
  · exact Or.inl h1
  · rw [List.mem_singleton.mp h2]
    exact Or.inr ⟨rfl, rfl⟩

/-- C10: every record built by a creation helper starts with
`isRead = false`, and no creation or deletion operation ever introduces a
read document or a `readAt` timestamp: a stored notification can only become
read through the mark-as-read operations. -/
theorem creations_start_unread :
    ∀ (subOrder : Order) (oldStatus newStatus f title message : String)
      (productId : Option String) (sdata : Option NotifData)
      (pdata : Option (List (String × String))) (s : Store)
      (inp : NotifInput) (now : Int) (newId : String) (d : NotifDoc)
      (ids : List String),
      (orderNotificationInput subOrder).isRead = false ∧
      ((paymentNotificationInput subOrder oldStatus newStatus).map
          (·.isRead)).getD false = false ∧
      (orderStatusNotificationInput subOrder oldStatus newStatus).isRead
        = false ∧
      (systemNotificationInput f title message sdata).isRead = false ∧
      (productNotificationInput f title message productId pdata).isRead
        = false ∧
      (d ∈ createNotification s inp now newId →
        d ∈ s ∨ (d.isRead = inp.isRead ∧ d.readAt = none)) ∧
      (d ∈ createSupplierOrderNotification s subOrder now newId →
        d ∈ s ∨ (d.isRead = false ∧ d.readAt = none)) ∧
      (d ∈ createSupplierPaymentNotification s subOrder oldStatus newStatus
          now newId →
        d ∈ s ∨ (d.isRead = false ∧ d.readAt = none)) ∧
      (d ∈ createSupplierOrderStatusNotification s subOrder oldStatus
          newStatus now newId →
        d ∈ s ∨ (d.isRead = false ∧ d.readAt = none)) ∧
      (d ∈ createSystemNotification s f title message sdata now newId →
        d ∈ s ∨ (d.isRead = false ∧ d.readAt = none)) ∧
      (d ∈ createProductNotification s f title message productId pdata now
          newId →
        d ∈ s ∨ (d.isRead = false ∧ d.readAt = none)) ∧
      (d ∈ deleteNotification s newId → d ∈ s) ∧
      (d ∈ deleteMultipleNotifications s ids → d ∈ s) := by
  intro subOrder oldStatus newStatus f title message productId sdata pdata s
    inp now newId d ids
  refine ⟨rfl, paymentInput_isRead_getD subOrder oldStatus newStatus, rfl,
    rfl, rfl, mem_createNotification, mem_createNotification,
    ?_, mem_createNotification, mem_createNotification,
    mem_createNotification, fun h => List.mem_of_mem_filter h,
    mem_deleteMultiple ids s d⟩
  unfold createSupplierPaymentNotification
  cases h : paymentNotificationInput subOrder oldStatus newStatus with
  | none => exact Or.inl
  | some i =>
    intro hm
    rcases mem_createNotification hm with h1 | h2
    · exact Or.inl h1
    · refine Or.inr ⟨?_, h2.2⟩
      rw [h2.1]
      have : i.isRead = false := by
        have := paymentInput_isRead_getD subOrder oldStatus newStatus
        rw [h] at this
        simpa using this
      exact this

/-- A generic notification input, used by the witnesses below. -/
def wInp : NotifInput := systemNotificationInput "f1" "Titre" "Message" none

/-- The documents the creation helpers append for the witness fixtures. -/
def wDoc : NotifDoc := storedDoc wInp 0 "n1"

def wDocOrder : NotifDoc := storedDoc (orderNotificationInput testOrder) 0 "n1"

def wDocPayment : NotifDoc :=
  storedDoc ((paymentNotificationInput testOrder "pending" "paid").getD wInp)
    0 "n1"

def wDocStatus : NotifDoc :=
  storedDoc (orderStatusNotificationInput testOrder "pending" "confirmed") 0
    "n1"

def wDocProduct : NotifDoc :=
  storedDoc (productNotificationInput "f1" "Titre" "Message" (some "p1") none)
    0 "n1"

/-- Witness for C10: the document appended by each creation helper is unread with
no `readAt`, and deletes only keep previously existing documents. -/
theorem creations_start_unread_witness :
    (wDoc ∈ ([] : Store) ∨ (wDoc.isRead = wInp.isRead ∧ wDoc.readAt = none)) ∧
    (wDocOrder ∈ ([] : Store) ∨
      (wDocOrder.isRead = false ∧ wDocOrder.readAt = none)) ∧
    (wDocPayment ∈ ([] : Store) ∨
      (wDocPayment.isRead = false ∧ wDocPayment.readAt = none)) ∧
    (wDocStatus ∈ ([] : Store) ∨
      (wDocStatus.isRead = false ∧ wDocStatus.readAt = none)) ∧
    (wDocProduct ∈ ([] : Store) ∨
      (wDocProduct.isRead = false ∧ wDocProduct.readAt = none)) ∧
    wDoc ∈ ([wDoc] : Store) := by
  refine ⟨(creations_start_unread testOrder "pending" "paid" "f1" "Titre"
      "Message" (some "p1") none none [] wInp 0 "n1" wDoc []).2.2.2.2.2.1
      (by decide),
    (creations_start_unread testOrder "pending" "paid" "f1" "Titre"
      "Message" (some "p1") none none [] wInp 0 "n1" wDocOrder
      []).2.2.2.2.2.2.1 (by decide),
    (creations_start_unread testOrder "pending" "paid" "f1" "Titre"
      "Message" (some "p1") none none [] wInp 0 "n1" wDocPayment
      []).2.2.2.2.2.2.2.1 (by decide),
    (creations_start_unread testOrder "pending" "confirmed" "f1" "Titre"
      "Message" (some "p1") none none [] wInp 0 "n1" wDocStatus
      []).2.2.2.2.2.2.2.2.1 (by decide),
    (creations_start_unread testOrder "pending" "paid" "f1" "Titre"
      "Message" (some "p1") none none [] wInp 0 "n1" wDocProduct
      []).2.2.2.2.2.2.2.2.2.2.1 (by decide),
    (creations_start_unread testOrder "pending" "paid" "f1" "Titre"
      "Message" (some "p1") none none [wDoc] wInp 0 "zz" wDoc
      []).2.2.2.2.2.2.2.2.2.2.2.1 (by decide)⟩

lemma priority_cmp_le_iff (a b : EnhancedNotification) :
    sortComparator "priority" a b ≤ 0
      ↔ (priorityOrder b.priority < priorityOrder a.priority
         ∨ (priorityOrder a.priority = priorityOrder b.priority
            ∧ b.createdAt ≤ a.createdAt)) := by
  show (if priorityOrder a.priority == priorityOrder b.priority then
      b.createdAt - a.createdAt
    else ((priorityOrder b.priority : Int) - (priorityOrder a.priority : Int)))
      ≤ 0 ↔ _
  by_cases h : priorityOrder a.priority = priorityOrder b.priority
  · rw [if_pos (by simpa using h)]
    constructor
    · intro hle
      exact Or.inr ⟨h, by omega⟩
    · rintro (hlt | ⟨_, hle⟩)
      · omega
      · omega
  · rw [if_neg (by simpa using h)]
    constructor
    · intro hle
      refine Or.inl ?_
      omega
    · rintro (hlt | ⟨heq, _⟩)
      · omega
      · exact absurd heq h

lemma priorityLe_trans :
    ∀ a b c : EnhancedNotification,
      decide (sortComparator "priority" a b ≤ 0) = true →
      decide (sortComparator "priority" b c ≤ 0) = true →
      decide (sortComparator "priority" a c ≤ 0) = true := by
  intro a b c hab hbc
  rw [decide_eq_true_eq, priority_cmp_le_iff] at hab hbc ⊢
  omega

lemma priorityLe_total :
    ∀ a b : EnhancedNotification,
      (decide (sortComparator "priority" a b ≤ 0) ||
       decide (sortComparator "priority" b a ≤ 0)) = true := by
  intro a b
  rw [Bool.or_eq_true, decide_eq_true_eq, decide_eq_true_eq,
    priority_cmp_le_iff, priority_cmp_le_iff]
  omega

/-- C5: sorting with key `priority` permutes the input so that every
notification of strictly greater priority rank (high = 3 > medium = 2 >
low = 1) comes first, and notifications of equal rank appear in descending
`createdAt` order. -/
theorem prioritySort_perm_and_ordered :
    ∀ (l : List EnhancedNotification),
      (filteredAndSortedNotifications l "" "priority").Perm l ∧
      (filteredAndSortedNotifications l "" "priority").Pairwise
        (fun a b => priorityOrder b.priority < priorityOrder a.priority
          ∨ (priorityOrder a.priority = priorityOrder b.priority
             ∧ b.createdAt ≤ a.createdAt)) ∧
      priorityOrder "high" = 3 ∧ priorityOrder "medium" = 2 ∧
      priorityOrder "low" = 1 := by
  intro l
  have hfilter : l.filter (matchesSearch "") = l := by
    rw [List.filter_eq_self]
    intro n _
    simp [matchesSearch]
  refine ⟨?_, ?_, rfl, rfl, rfl⟩
  · unfold filteredAndSortedNotifications
    rw [hfilter]
    exact List.mergeSort_perm l _
  · unfold filteredAndSortedNotifications
    rw [hfilter]
    have hs := List.sorted_mergeSort priorityLe_trans priorityLe_total l
    exact hs.imp (fun hab => (priority_cmp_le_iff _ _).mp
      (by simpa using hab))

/-- C7: `sendOrderNotification` is total and returns a boolean — no exception
escapes the dispatcher.  It returns `false` with no provider invocation when
the dispatcher is uninitialized or when no email template is keyed by
`order.status`; when the provider fails, the error is caught and the call
returns `false`; and the provider is invoked at most once per call. -/
theorem sendOrderNotification_returns_false_safely :
    ∀ (isInitialized : Bool) (send : TemplateParams → Except String String)
      (order : Order),
      (isInitialized = false →
        sendOrderNotification isInitialized send order = (false, [])) ∧
      (ORDER_STATUS_TEMPLATES order.status = none →
        sendOrderNotification isInitialized send order = (false, [])) ∧
      (∀ e : String, (∀ p, send p = Except.error e) →
        (sendOrderNotification isInitialized send order).1 = false) ∧
      (sendOrderNotification isInitialized send order).2.length ≤ 1 := by
  intro init send order
  refine ⟨?_, ?_, ?_, ?_⟩
  · intro h
    subst h
    rfl
  · intro h
    cases init
    · rfl
    · simp only [sendOrderNotification, Bool.not_true, h]
      rfl
  · intro e he
    cases init
    · rfl
    · simp only [sendOrderNotification]
      split
      · rfl
      · split
        · rfl
        · simp only [he]
  · cases init
    · exact Nat.zero_le 1
    · simp only [sendOrderNotification]
      split
      · simp
      · split
        · simp
        · split <;> simp

/-- A provider stub that always fails, for the C7 witness. -/
def sendAlwaysFails : TemplateParams → Except String String :=
  fun _ => Except.error "network error"

/-- The test order with a status outside the template table. -/
def unknownStatusOrder : Order := { testOrder with status := "unknown" }

/-- Witness for C7: an uninitialized dispatcher and an unknown status both
yield `false` with no provider call, and a failing provider yields `false`. -/
theorem sendOrderNotification_returns_false_safely_witness :
    sendOrderNotification false sendAlwaysFails testOrder = (false, []) ∧
    sendOrderNotification true sendAlwaysFails unknownStatusOrder
      = (false, []) ∧
    (sendOrderNotification true sendAlwaysFails testOrder).1 = false :=
  ⟨(sendOrderNotification_returns_false_safely false sendAlwaysFails
      testOrder).1 rfl,
    (sendOrderNotification_returns_false_safely true sendAlwaysFails
      unknownStatusOrder).2.1 rfl,
    (sendOrderNotification_returns_false_safely true sendAlwaysFails
      testOrder).2.2.1 "network error" (fun _ => rfl)⟩

/-- C8: the click-through rate equals `clicked_count / total * 100`, is 0
when the total is 0 (no division-by-zero fault), and always lies in
`[0, 100]`. -/
theorem clickThroughRate_in_bounds :
    ∀ (l : List EnhancedNotification),
      (l.length = 0 → clickThroughRate l = 0) ∧
      (l.length ≠ 0 → clickThroughRate l
        = ((l.filter (·.clicked)).length : ℚ) / (l.length : ℚ) * 100) ∧
      0 ≤ clickThroughRate l ∧ clickThroughRate l ≤ 100 := by
  intro l
  unfold clickThroughRate
  by_cases h : l.length = 0
  · simp [h]
  · have hpos : (0 : ℚ) < (l.length : ℚ) := by
      have := Nat.pos_of_ne_zero h
      exact_mod_cast this
    have hle : ((l.filter (·.clicked)).length : ℚ) ≤ (l.length : ℚ) := by
      exact_mod_cast List.length_filter_le _ l
    rw [if_neg h]
    refine ⟨fun h0 => absurd h0 h, fun _ => rfl, ?_, ?_⟩
    · positivity
    · have hdiv : ((l.filter (·.clicked)).length : ℚ) / (l.length : ℚ) ≤ 1 :=
        (div_le_one hpos).mpr hle
      calc ((l.filter (·.clicked)).length : ℚ) / (l.length : ℚ) * 100
          ≤ 1 * 100 := by
            exact mul_le_mul_of_nonneg_right hdiv (by norm_num)
        _ = 100 := by norm_num

/-- A concrete clicked enhanced notification, for the C8 witness. -/
def sampleEnhanced : EnhancedNotification :=
  { id := "e1", type := "order", subType := "new_order", title := "Titre"
    message := "Message", priority := "high", fournisseurId := "f1"
    fournisseurName := "Fournisseur", orderId := some "o1", productId := none
    customerId := none, campaignId := none, isRead := false, readAt := none
    isArchived := false, archivedAt := none, emailSent := false
    emailSentAt := none, smsSent := false, smsSentAt := none, clicked := true
    clickedAt := some 1, actionTaken := false, actionTakenAt := none
    data := none, expiresAt := none, createdAt := 0, updatedAt := 0 }

/-- Witness for C8: the empty set yields rate 0, and a singleton clicked set
yields the `clicked / total * 100` formula, within bounds. -/
theorem clickThroughRate_in_bounds_witness :
    clickThroughRate [] = 0 ∧
    clickThroughRate [sampleEnhanced]
      = ((([sampleEnhanced].filter (·.clicked)).length : ℚ)
          / (([sampleEnhanced] : List EnhancedNotification).length : ℚ) * 100)
      ∧ clickThroughRate [sampleEnhanced] ≤ 100 :=
  ⟨(clickThroughRate_in_bounds []).1 rfl,
    (clickThroughRate_in_bounds [sampleEnhanced]).2.1 (by decide),
    (clickThroughRate_in_bounds [sampleEnhanced]).2.2.2⟩

end Optimizi
